import Mathlib

/-!
Verification of the chapel-lang/github-email-notifications webhook emailer
(`emailer.py`) against its natural-language specification.

The embedding is byte-level where the source operates on bytes (HMAC-SHA1
signature verification: secrets, request bodies and signature headers are
`List Nat` of byte values) and `String`-level where the source operates on
Python `str` values (commit messages, file paths, email fields).  External
collaborators (the Flask request object, the GitHub pull-request API, the
SMTP transport, the process environment) are modelled as explicit inputs:
a `Request` record, a `PrApi` behaviour, an `Env` record.  Python
exceptions are modelled with `Except` / `Option`; an `Outcome.error`
result of the handler corresponds to an uncaught exception.
-/

namespace Emailer

/-! ## Bit-level helpers (32-bit arithmetic on `Nat`) -/

/-- Two to the 32: all SHA-1 word arithmetic is reduced modulo this. -/
def w32 : Nat := 4294967296

/-- Rotate a 32-bit word (represented as a `Nat` below `w32`) left by `k`. -/
def rotl (k n : Nat) : Nat := ((n <<< k) ||| (n >>> (32 - k))) % w32

/-- Big-endian 4-byte representation of a 32-bit word. -/
def toBE32 (n : Nat) : List Nat :=
  [(n >>> 24) &&& 255, (n >>> 16) &&& 255, (n >>> 8) &&& 255, n &&& 255]

/-- Big-endian 8-byte representation of a 64-bit length field. -/
def toBE64 (n : Nat) : List Nat :=
  [(n >>> 56) &&& 255, (n >>> 48) &&& 255, (n >>> 40) &&& 255, (n >>> 32) &&& 255,
   (n >>> 24) &&& 255, (n >>> 16) &&& 255, (n >>> 8) &&& 255, n &&& 255]

/-! ## SHA-1 (FIPS 180-4), as computed by Python's `hashlib`/`hmac` -/

/-- SHA-1 padding: append `0x80`, zero bytes up to 56 mod 64, then the
bit length as a big-endian 64-bit integer. -/
def sha1Pad (msg : List Nat) : List Nat :=
  msg ++ [128] ++ List.replicate ((119 - (msg.length % 64)) % 64) 0
      ++ toBE64 (8 * msg.length)

/-- Split a byte list into 64-byte chunks. -/
def chunks64 (l : List Nat) : List (List Nat) :=
  if l = [] then [] else l.take 64 :: chunks64 (l.drop 64)
termination_by l.length
decreasing_by
  simp only [List.length_drop]
  have : l.length ≠ 0 := fun h => by
    cases l with
    | nil => simp_all
    | cons a as => simp at h
  omega

/-- Assemble big-endian 32-bit words from bytes. -/
def bytesToWords : List Nat → List Nat
  | a :: b :: c :: d :: rest =>
      ((((a <<< 24) ||| (b <<< 16)) ||| (c <<< 8)) ||| d) :: bytesToWords rest
  | _ => []

/-- Message-schedule extension: append `k` more words, each the left
rotation by one of the xor of the words 3, 8, 14 and 16 positions back. -/
def sha1ExtendAux (ws : List Nat) : Nat → List Nat
  | 0 => ws
  | k + 1 =>
      let n := ws.length
      let w := rotl 1 ((((ws.getD (n - 3) 0) ^^^ (ws.getD (n - 8) 0))
                        ^^^ (ws.getD (n - 14) 0)) ^^^ (ws.getD (n - 16) 0))
      sha1ExtendAux (ws ++ [w]) k

/-- Extend the 16 block words to the 80 schedule words. -/
def sha1Extend (ws : List Nat) : List Nat := sha1ExtendAux ws 64

/-- One SHA-1 round: update the five-word state with word `wi` of round `i`. -/
def sha1Round (st : Nat × Nat × Nat × Nat × Nat) (i wi : Nat) :
    Nat × Nat × Nat × Nat × Nat :=
  let (a, b, c, d, e) := st
  let f :=
    if i < 20 then (b &&& c) ||| ((b ^^^ 4294967295) &&& d)
    else if i < 40 then (b ^^^ c) ^^^ d
    else if i < 60 then ((b &&& c) ||| (b &&& d)) ||| (c &&& d)
    else (b ^^^ c) ^^^ d
  let k :=
    if i < 20 then 1518500249
    else if i < 40 then 1859775393
    else if i < 60 then 2400959708
    else 3395469782
  let temp := (rotl 5 a + f + e + k + wi) % w32
  (temp, a, rotl 30 b, c, d)

/-- SHA-1 compression of one 64-byte block into the running state. -/
def sha1Compress (h : Nat × Nat × Nat × Nat × Nat) (block : List Nat) :
    Nat × Nat × Nat × Nat × Nat :=
  let ws := sha1Extend (bytesToWords block)
  let fin := ws.enum.foldl (fun st p => sha1Round st p.1 p.2) h
  match h, fin with
  | (h0, h1, h2, h3, h4), (a, b, c, d, e) =>
      ((h0 + a) % w32, (h1 + b) % w32, (h2 + c) % w32, (h3 + d) % w32,
       (h4 + e) % w32)

/-- The SHA-1 initialisation vector. -/
def sha1Init : Nat × Nat × Nat × Nat × Nat :=
  (1732584193, 4023233417, 2562383102, 271733878, 3285377520)

/-- SHA-1 digest (20 bytes) of a byte sequence. -/
def sha1 (msg : List Nat) : List Nat :=
  match (chunks64 (sha1Pad msg)).foldl sha1Compress sha1Init with
  | (h0, h1, h2, h3, h4) =>
      toBE32 h0 ++ toBE32 h1 ++ toBE32 h2 ++ toBE32 h3 ++ toBE32 h4

/-- HMAC-SHA1 (RFC 2104 with 64-byte block size), as computed by
`hmac.new(secret, body, digestmod="sha1")` in `_valid_signature`. -/
def hmacSha1 (key msg : List Nat) : List Nat :=
  let key := if key.length > 64 then sha1 key else key
  let key := key ++ List.replicate (64 - key.length) 0
  let ipad := key.map (fun b => b ^^^ 54)
  let opad := key.map (fun b => b ^^^ 92)
  sha1 (opad ++ sha1 (ipad ++ msg))

/-- ASCII code of the lowercase hexadecimal digit for `n < 16`. -/
def hexDigit (n : Nat) : Nat := if n < 10 then 48 + n else 87 + n

/-- Lowercase hexadecimal rendering of a byte list, as ASCII bytes
(the UTF-8 encoding of Python's `hexdigest()`). -/
def hexBytes : List Nat → List Nat
  | [] => []
  | b :: rest => hexDigit (b / 16) :: hexDigit (b % 16) :: hexBytes rest

/-- The ASCII bytes of the literal `"sha1="`. -/
def sigSchemeTag : List Nat := [115, 104, 97, 49, 61]

/-- The signature the server expects for a given secret and body:
`"sha1=" + hmac.new(secret, body, "sha1").hexdigest()`, as UTF-8 bytes. -/
def expected_signature (secret body : List Nat) : List Nat :=
  sigSchemeTag ++ hexBytes (hmacSha1 secret body)

/-- Model of `hmac.compare_digest` on byte strings: equality (the
constant-time execution of the comparison has no semantic content). -/
def hmac_compare_digest (a b : List Nat) : Bool := a == b

/-- Model of `_valid_signature(gh_signature, body, secret)`
(emailer.py lines 212-227).  All three inputs are byte strings; the
source's `to_str` UTF-8 normalisation is the identity here because the
embedding works on bytes throughout. -/
def _valid_signature (gh_signature body secret : List Nat) : Bool :=
  hmac_compare_digest (expected_signature secret body) gh_signature

/-! ## Python string primitives used by the source -/

/-- Python's `sep.join(parts)`. -/
def pyJoin (sep : String) : List String → String
  | [] => ""
  | [x] => x
  | x :: xs => x ++ sep ++ pyJoin sep xs

/-- Python's `s[:n]` (slicing by code point). -/
def pyTake (n : Nat) (s : String) : String := ⟨s.data.take n⟩

/-- Does `listStartsWith needle hay` hold: is `needle` a prefix of `hay`? -/
def listStartsWith : List Char → List Char → Bool
  | [], _ => true
  | _ :: _, [] => false
  | a :: as, b :: bs => a == b && listStartsWith as bs

/-- Is `needle` a contiguous sublist of `hay`? -/
def containsL (needle : List Char) : List Char → Bool
  | [] => listStartsWith needle []
  | c :: rest => listStartsWith needle (c :: rest) || containsL needle rest

/-- Python's `needle in haystack` on strings. -/
def pyIn (needle haystack : String) : Bool := containsL needle.data haystack.data

/-- The line-break characters recognised by Python's `str.splitlines`. -/
def isLineBreak (c : Char) : Bool :=
  c == '\n' || c == '\r' || c == '\x0b' || c == '\x0c' || c == '\x1c' ||
  c == '\x1d' || c == '\x1e' || c == '\x85' || c == '\u2028' || c == '\u2029'

/-- Python's `str.splitlines` on the underlying character list: break on
each line-break character (treating `\r\n` as one break), and do not
produce a final empty line for a trailing break. -/
def splitlinesList : List Char → List (List Char)
  | [] => []
  | '\r' :: '\n' :: cs => [] :: splitlinesList cs
  | c :: cs =>
      if isLineBreak c then [] :: splitlinesList cs
      else
        match splitlinesList cs with
        | [] => [[c]]
        | l :: ls => (c :: l) :: ls

/-- Python's `str.splitlines`. -/
def splitlines (s : String) : List String := (splitlinesList s.data).map (⟨·⟩)

/-- Split a character list on `\n` alone, like Python's `s.split("\n")`:
used only to state blank-line properties of the changed-files listing. -/
def splitNl : List Char → List (List Char)
  | [] => [[]]
  | c :: cs =>
      if c = '\n' then [] :: splitNl cs
      else
        match splitNl cs with
        | [] => [[c]]
        | l :: ls => (c :: l) :: ls

/-- A string is free of blank lines when it is empty or none of the
segments between consecutive newlines (nor before the first or after the
last newline) is empty. -/
def noBlankLines (s : String) : Prop := s = "" ∨ [] ∉ splitNl s.data

instance (s : String) : Decidable (noBlankLines s) := by
  unfold noBlankLines; infer_instance

/-! ## Data model -/

/-- The `head_commit` JSON object of a push payload.  Every field is an
`Option`: `none` models an absent key, whose access raises `KeyError`. -/
structure HeadCommit where
  id : Option String
  message : Option String
  added : Option (List String)
  removed : Option (List String)
  modified : Option (List String)
  deriving DecidableEq

/-- The parsed JSON body of a push webhook.  Nested lookups such as
`json_dict['repository']['full_name']` are flattened to one optional
field; `none` models any `KeyError` on the lookup path. -/
structure Payload where
  ref : Option String
  deleted : Option Bool
  compare : Option String
  repository_full_name : Option String
  pusher_name : Option String
  pusher_email : Option String
  after : Option String
  head_commit : Option HeadCommit
  deriving DecidableEq

/-- An inbound webhook request as seen by the handler: the
`x-github-event` header, the optional `x-hub-signature` header, the raw
body bytes, and the body's JSON parse (`none` when `get_json` fails). -/
structure Request where
  event : String
  signature : Option (List Nat)
  data : List Nat
  payload : Option Payload
  deriving DecidableEq

/-- The process environment variables read by the source.
`send_from_author` models key *presence* of
`GITHUB_COMMIT_EMAILER_SEND_FROM_AUTHOR` (its value is never read). -/
structure Env where
  secret : Option (List Nat)
  sender : Option String
  recipient : Option String
  recipient_cc : Option String
  reply_to : Option String
  approved : Option String
  send_from_author : Bool
  mailgun_login : Option String
  mailgun_password : Option String
  deriving DecidableEq

/-- The `msg_info` dictionary built by `commit_email` (lines 103-113). -/
structure MsgInfo where
  repo : String
  branch : String
  revision : String
  message : String
  changed_files : String
  pusher : String
  pusher_email : String
  compare_url : String
  pr_url : String
  deriving DecidableEq

/-- The mail actually handed to `server.sendmail` by `_send_email`:
envelope sender and recipients plus the MIME headers and body.  Producing
a `SentMail` is the model of a mail transmission. -/
structure SentMail where
  envelope_sender : String
  envelope_recipients : List String
  subject : String
  from_header : String
  to_header : String
  cc_header : Option String
  reply_to_header : Option String
  approved_header : Option String
  body : String
  deriving DecidableEq

/-- Python exceptions that can escape the modelled code. -/
inductive PyError where
  /-- a missing dictionary key -/
  | keyError
  /-- `raise ValueError(...)` from `_get_secret` or `_send_email` -/
  | valueError
  /-- `flask.request.get_json()` failing on a non-JSON body -/
  | badRequest
  /-- an out-of-range sequence index (`message_lines[0]` on `[]`) -/
  | indexError
  deriving DecidableEq

/-- One element of the JSON list returned by the pull-requests API;
`html_url = none` models a result object without an `html_url` key. -/
structure PrItem where
  html_url : Option String
  deriving DecidableEq

/-- Behaviour of the GitHub commit→pull-requests API call made in the
`try` block (lines 88-101): either one of the failure modes the `except`
clause can see, or a parsed JSON list of results. -/
inductive PrApi where
  /-- `requests.get` raises (network error, timeout) -/
  | getRaises
  /-- `response.json()` raises (non-JSON body) -/
  | jsonRaises
  /-- the parsed JSON is not a list, so `responseJSON[0]` raises -/
  | nonList
  /-- the parsed JSON is a list of result objects -/
  | results (items : List PrItem)
  deriving DecidableEq

/-- The HTTP-level outcome of the handler: a 200 response body, or an
uncaught exception. -/
inductive Outcome where
  | ok (resp : String)
  | error (e : PyError)
  deriving DecidableEq

/-- Control-flow steps of one handler invocation, recorded in order.
`readPayload` covers any group of payload-field accesses; `send` records
the `msg_info` handed to `_send_email` once the mail is transmitted. -/
inductive Step where
  | readEvent
  | getSecret
  | verifySig
  | getJson
  | readPayload
  | prLookup
  | send (info : MsgInfo)
  deriving DecidableEq

/-! ## The emailer's functions -/

/-- Model of `_get_secret()` (lines 119-125): the configured secret, or a
`ValueError` when `GITHUB_COMMIT_EMAILER_SECRET` is not set. -/
def _get_secret (env : Env) : Except PyError (List Nat) :=
  match env.secret with
  | none => .error .valueError
  | some s => .ok s

/-- Model of `_get_sender(pusher_email)` (lines 185-192). -/
def _get_sender (env : Env) (pusher_email : String) : Option String :=
  if env.send_from_author then some pusher_email else env.sender

/-- Model of `_get_subject(repo, message)` (lines 195-209).  The result is
`none` exactly when the source raises `IndexError` (`message_lines[0]` on
an empty list). -/
def _get_subject (repo : String) (message : String) : Option String :=
  let message_lines := splitlines message
  let subject_msg? :=
    if message_lines.length ≥ 3 then message_lines[2]? else message_lines[0]?
  subject_msg?.map (fun m => "[Chapel Merge] " ++ pyTake 50 m)

/-- One changed-files group (lines 74-79): `'\n'.join('{tag}{f}' ...)`
with `tag` one of `"A "`, `"R "`, `"M "`. -/
def formatFiles (tag : String) (files : List String) : String :=
  pyJoin "\n" (files.map (fun f => tag ++ f))

/-- The changed-files listing (lines 74-80): the three groups in the
fixed order added, removed, modified, keeping only non-empty group
strings, joined by newlines. -/
def changesListing (added removed modified : List String) : String :=
  pyJoin "\n" (([formatFiles "A " added, formatFiles "R " removed,
                 formatFiles "M " modified]).filter (fun i => i != ""))

/-- The prefixed lines of all three groups in order — the flattened view
of the listing used to state its properties. -/
def changedLines (added removed modified : List String) : List String :=
  added.map (fun f => "A " ++ f) ++ removed.map (fun f => "R " ++ f)
    ++ modified.map (fun f => "M " ++ f)

/-- The body of the `try` block (lines 88-98): `none` models an exception
reaching the `except` clause (network error, non-JSON response, empty
result list via `IndexError`, or a missing `html_url` key via
`KeyError`). -/
def pr_lookup_body : PrApi → Option String
  | .getRaises => none
  | .jsonRaises => none
  | .nonList => none
  | .results [] => none
  | .results (item :: _) => item.html_url

/-- The pull-request URL after the `try`/`except` (lines 88-101): the
looked-up URL, or the sentinel `"Unavailable"` when the block raised. -/
def fetch_pr_url (api : PrApi) : String := (pr_lookup_body api).getD "Unavailable"

/-- The email body template of `_send_email` (lines 154-166). -/
def email_body (m : MsgInfo) : String :=
  "Branch: " ++ m.branch ++ "\n    Revision: " ++ m.revision ++
  "\n    Author: " ++ m.pusher ++ "\n    Link: " ++ m.pr_url ++
  "\n    Log Message:\n\n    " ++ m.message ++
  "\n\n    Modified Files:\n    " ++ m.changed_files ++
  "\n\n    Compare: " ++ m.compare_url ++ "\n    "

/-- Model of `_send_email(msg_info)` (lines 128-182).  `.error` models an
uncaught exception raised before `server.sendmail` runs, so an `.error`
result performs no mail transmission; `.ok` carries the transmitted
mail.  The SMTP host, port and credentials only parameterise the
transport and are not part of the message. -/
def _send_email (env : Env) (msg_info : MsgInfo) : Except PyError SentMail :=
  let sender := _get_sender env msg_info.pusher_email
  let recipient := env.recipient
  match sender, recipient with
  | some sender, some recipient =>
    let recipient_ccs := env.recipient_cc
    let recipient_cc : Option (List String) :=
      recipient_ccs.map (fun s => s.splitOn ",")
    let reply_to := env.reply_to
    let approved := env.approved
    match _get_subject msg_info.repo msg_info.message with
    | none => .error .indexError
    | some subject =>
      let recipients :=
        match recipient_cc with
        | some cc => cc ++ [recipient]
        | none => [recipient]
      .ok { envelope_sender := sender
            envelope_recipients := recipients
            subject := subject
            from_header := sender
            to_header := recipient
            cc_header := recipient_ccs
            reply_to_header := reply_to
            approved_header := approved
            body := email_body msg_info }
  | _, _ => .error .valueError

/-- The trace shared by all exits taken between the first payload-field
access and the pull-request lookup. -/
def preTrace : List Step :=
  [Step.readEvent, Step.getSecret, Step.verifySig, Step.getJson, Step.readPayload]

/-- Model of the `commit_email` handler (lines 46-116), instrumented with
the ordered list of control-flow steps it performs.  The source's early
`return 'nope'` exits become `.ok "nope"`; uncaught exceptions become
`.error`; a completed notification becomes `.ok "yep"` with a
`Step.send` recording the composed `msg_info`. -/
def commit_email (env : Env) (api : PrApi) (req : Request) :
    Outcome × List Step :=
  let event := req.event
  if event ≠ "push" then
    (.ok "nope", [.readEvent])
  else
    match _get_secret env with
    | .error e => (.error e, [.readEvent, .getSecret])
    | .ok secret =>
      let gh_signature := req.signature.getD []
      if !_valid_signature gh_signature req.data secret then
        (.ok "nope", [.readEvent, .getSecret, .verifySig])
      else
        match req.payload with
        | none => (.error .badRequest, [.readEvent, .getSecret, .verifySig, .getJson])
        | some json_dict =>
          match json_dict.head_commit with
          | none => (.error .keyError, preTrace)
          | some head_commit =>
            match head_commit.message with
            | none => (.error .keyError, preTrace)
            | some message =>
              if !pyIn "Merge pull request" message then
                (.ok "nope", preTrace)
              else
                match json_dict.deleted with
                | none => (.error .keyError, preTrace)
                | some deleted =>
                  if deleted then
                    (.ok "nope", preTrace)
                  else
                    match head_commit.added, head_commit.removed,
                          head_commit.modified with
                    | some added, some removed, some modified =>
                      let changes := changesListing added removed modified
                      match json_dict.pusher_name, json_dict.pusher_email with
                      | some pname, some pemail =>
                        let pusher_email := pname ++ " <" ++ pemail ++ ">"
                        match json_dict.repository_full_name, json_dict.after with
                        | some repo_full_name, some _after =>
                          let prURL := fetch_pr_url api
                          match json_dict.ref, head_commit.id, json_dict.compare with
                          | some ref, some hc_id, some compare =>
                            let msg_info : MsgInfo :=
                              { repo := repo_full_name
                                branch := ref
                                revision := pyTake 7 hc_id
                                message := message
                                changed_files := changes
                                pusher := pname
                                pusher_email := pusher_email
                                compare_url := compare
                                pr_url := prURL }
                            match _send_email env msg_info with
                            | .error e =>
                                (.error e, preTrace ++ [.prLookup, .readPayload])
                            | .ok _mail =>
                                (.ok "yep", preTrace ++ [.prLookup, .readPayload,
                                                         .send msg_info])
                          | _, _, _ =>
                              (.error .keyError, preTrace ++ [.prLookup, .readPayload])
                        | _, _ => (.error .keyError, preTrace)
                      | _, _ => (.error .keyError, preTrace)
                    | _, _, _ => (.error .keyError, preTrace)

/-! ## Concrete sample inputs for witnesses and counterexamples -/

/-- A sample shared secret (the bytes of `"abc"`). -/
def sampleSecret : List Nat := [97, 98, 99]

/-- A sample raw request body (the bytes of `"{}"`). -/
def sampleBody : List Nat := [123, 125]

/-- A fully configured environment. -/
def envFull : Env :=
  { secret := some sampleSecret
    sender := some "noreply@example.com"
    recipient := some "commits@example.com"
    recipient_cc := none
    reply_to := none
    approved := none
    send_from_author := false
    mailgun_login := none
    mailgun_password := none }

/-- The environment with `GITHUB_COMMIT_EMAILER_SENDER` set but empty. -/
def envEmptySender : Env := { envFull with sender := some "" }

/-- The environment with `GITHUB_COMMIT_EMAILER_RECIPIENT` unset. -/
def envNoRecipient : Env := { envFull with recipient := none }

/-- The push payload of the repository's own end-to-end test
(`test_test_send_mail`). -/
def payloadFull : Payload :=
  { ref := some "the/master"
    deleted := some false
    compare := some "http://the-url.it"
    repository_full_name := some "testing/test"
    pusher_name := some "the-tester"
    pusher_email := some "the@example.com"
    after := some "some-sha"
    head_commit := some
      { id := some "some-sha1"
        message := some "Merge pull request: A lovely\n\ncommit message."
        added := some []
        removed := some ["a.out", "gen"]
        modified := some ["README.md", "README", "LICENSE"] } }

/-- The same payload with a head-commit message that is not a merge. -/
def payloadNoMerge : Payload :=
  { payloadFull with
    head_commit := some
      ({ id := some "some-sha1"
         message := some "Test"
         added := some []
         removed := some []
         modified := some [] } : HeadCommit) }

/-- The same payload for a deleted branch. -/
def payloadDeleted : Payload := { payloadFull with deleted := some true }

/-- A valid push request: correctly signed body and complete payload. -/
def requestPush : Request :=
  { event := "push"
    signature := some (expected_signature sampleSecret sampleBody)
    data := sampleBody
    payload := some payloadFull }

/-- A non-push request with an invalid signature and unparseable body. -/
def requestPing : Request :=
  { event := "ping", signature := some [1, 2, 3], data := sampleBody,
    payload := none }

/-- Another non-push request (a complete payload that must be ignored). -/
def requestNonPush : Request := { requestPush with event := "issues" }

/-- A push request whose presented signature is invalid. -/
def requestBadSig : Request := { requestPush with signature := some [1, 2, 3] }

/-- A signed push request whose head commit is not a merge commit. -/
def requestNoMerge : Request := { requestPush with payload := some payloadNoMerge }

/-- A signed push request for a deleted branch with a merge message. -/
def requestDeleted : Request := { requestPush with payload := some payloadDeleted }

/-- The `msg_info` expected by the repository's end-to-end test (pull
request lookup failed). -/
def msgSample : MsgInfo :=
  { repo := "testing/test"
    branch := "the/master"
    revision := "some-sh"
    message := "Merge pull request: A lovely\n\ncommit message."
    changed_files := "R a.out\nR gen\nM README.md\nM README\nM LICENSE"
    pusher := "the-tester"
    pusher_email := "the-tester <the@example.com>"
    compare_url := "http://the-url.it"
    pr_url := "Unavailable" }

/-! ## Helper lemmas: signature verification -/

theorem sha1_length (msg : List Nat) : (sha1 msg).length = 20 := by
  unfold sha1
  obtain ⟨h0, h1, h2, h3, h4⟩ := (chunks64 (sha1Pad msg)).foldl sha1Compress sha1Init
  simp [toBE32]

theorem hmacSha1_length (key msg : List Nat) : (hmacSha1 key msg).length = 20 :=
  sha1_length _

theorem hexBytes_length (l : List Nat) : (hexBytes l).length = 2 * l.length := by
  induction l with
  | nil => rfl
  | cons b rest ih => simp [hexBytes, ih]; omega

theorem expected_signature_length (secret body : List Nat) :
    (expected_signature secret body).length = 45 := by
  simp [expected_signature, sigSchemeTag, hexBytes_length, hmacSha1_length]

/-- The correctly computed signature is always accepted. -/
theorem valid_signature_self (secret body : List Nat) :
    _valid_signature (expected_signature secret body) body secret = true := by
  simp [_valid_signature, hmac_compare_digest]

/-- A presented signature whose byte length differs from 45 (the length
of `"sha1=" + 40 hex digits`) is always rejected. -/
theorem valid_signature_false_of_length_ne (sig body secret : List Nat)
    (h : sig.length ≠ 45) : _valid_signature sig body secret = false := by
  simp only [_valid_signature, hmac_compare_digest, beq_eq_false_iff_ne, ne_eq]
  intro heq
  exact h (heq ▸ expected_signature_length secret body)

/-- Replacing any single byte of the correct signature by a different
byte makes verification fail. -/
theorem valid_signature_false_of_mutation (secret body : List Nat) (i : Nat)
    (c : Nat) (hi : i < 45) (hc : c ≠ (expected_signature secret body).getD i 0) :
    _valid_signature ((expected_signature secret body).set i c) body secret
      = false := by
  simp only [_valid_signature, hmac_compare_digest, beq_eq_false_iff_ne, ne_eq]
  intro heq
  have hlen : i < (expected_signature secret body).length := by
    rw [expected_signature_length]; exact hi
  apply hc
  have h2 := congrArg (fun l => l[i]?) heq
  simp only [List.getElem?_eq_getElem hlen,
    List.getElem?_eq_getElem
      (show i < ((expected_signature secret body).set i c).length by
        simpa using hlen)] at h2
  rw [List.getElem_set_self] at h2
  have h3 : c = (expected_signature secret body)[i] := by
    injection h2 with h2'
    exact h2'.symm
  rw [h3]
  simp [List.getD_eq_getElem?_getD, List.getElem?_eq_getElem hlen]

/-! ## Helper lemmas: strings, splitlines, subject -/

theorem string_eq_empty_iff_data (s : String) : s = "" ↔ s.data = [] := by
  constructor
  · intro h; subst h; rfl
  · intro h; exact String.ext h

theorem string_append_ne_empty_left (s t : String) (h : s ≠ "") :
    s ++ t ≠ "" := by
  intro habs
  apply h
  rw [string_eq_empty_iff_data] at habs ⊢
  rw [String.data_append] at habs
  exact (List.append_eq_nil.mp habs).1

theorem string_append_assoc (a b c : String) : a ++ b ++ c = a ++ (b ++ c) := by
  apply String.ext
  simp only [String.data_append, List.append_assoc]

set_option maxHeartbeats 1000000 in
theorem splitlinesList_ne_nil (l : List Char) (h : l ≠ []) :
    splitlinesList l ≠ [] := by
  unfold splitlinesList
  split
  · exact absurd rfl h
  · simp
  · split
    · simp
    · split <;> simp

theorem splitlines_eq_nil_iff (m : String) : splitlines m = [] ↔ m = "" := by
  constructor
  · intro h
    rw [string_eq_empty_iff_data]
    by_contra hne
    exact splitlinesList_ne_nil m.data hne (by simpa [splitlines] using h)
  · intro h; rw [h]; rfl

/-- The subject computation succeeds exactly on messages with at least
one line. -/
theorem get_subject_isSome_iff (repo m : String) :
    (_get_subject repo m).isSome = true ↔ splitlines m ≠ [] := by
  simp only [_get_subject]
  by_cases h3 : (splitlines m).length ≥ 3
  · have h2 : 2 < (splitlines m).length := by omega
    simp [h3, List.getElem?_eq_getElem h2]
    exact List.ne_nil_of_length_pos (by omega)
  · simp only [h3, if_false]
    cases hl : splitlines m with
    | nil => simp
    | cons x xs => simp

theorem get_subject_total (repo m : String) (h : splitlines m ≠ []) :
    ∃ s, _get_subject repo m = some s := by
  have := (get_subject_isSome_iff repo m).mpr h
  cases hs : _get_subject repo m with
  | none => rw [hs] at this; simp at this
  | some s => exact ⟨s, rfl⟩

/-- A message containing the merge marker is non-empty, hence splits
into at least one line. -/
theorem splitlines_ne_nil_of_merge (m : String)
    (h : pyIn "Merge pull request" m = true) : splitlines m ≠ [] := by
  rw [Ne, splitlines_eq_nil_iff]
  intro habs
  subst habs
  exact absurd h (by decide)

/-! ## Helper lemmas: pyJoin and the changed-files listing -/

theorem pyJoin_cons (sep x : String) (ys : List String) (h : ys ≠ []) :
    pyJoin sep (x :: ys) = x ++ sep ++ pyJoin sep ys := by
  match ys with
  | [] => exact absurd rfl h
  | y :: ys' => rfl

theorem pyJoin_append (sep : String) (xs ys : List String) (hx : xs ≠ [])
    (hy : ys ≠ []) :
    pyJoin sep (xs ++ ys) = pyJoin sep xs ++ sep ++ pyJoin sep ys := by
  induction xs with
  | nil => exact absurd rfl hx
  | cons x xs' ih =>
    match xs' with
    | [] =>
      rw [List.singleton_append, pyJoin_cons sep x ys hy]
      rfl
    | x' :: xs'' =>
      rw [List.cons_append, pyJoin_cons sep x ((x' :: xs'') ++ ys) (by simp),
          pyJoin_cons sep x (x' :: xs'') (by simp), ih (by simp)]
      rw [string_append_assoc (x ++ sep), string_append_assoc (x ++ sep)]

theorem pyJoin_ne_empty (l : List String) (hne : l ≠ [])
    (h : ∀ s ∈ l, s ≠ "") : pyJoin "\n" l ≠ "" := by
  match l with
  | [x] => exact h x (by simp)
  | x :: y :: ys =>
    rw [pyJoin_cons _ _ _ (by simp)]
    exact string_append_ne_empty_left _ _
      (string_append_ne_empty_left _ _ (h x (by simp)))

theorem pyJoin_eq_empty_iff (l : List String) (h : ∀ s ∈ l, s ≠ "") :
    pyJoin "\n" l = "" ↔ l = [] := by
  constructor
  · intro he
    by_contra hne
    exact pyJoin_ne_empty l hne h he
  · intro he; rw [he]; rfl

theorem filter_map_pyJoin_eq_nil_iff (gs : List (List String))
    (h : ∀ g ∈ gs, ∀ s ∈ g, s ≠ "") :
    ((gs.map (pyJoin "\n")).filter (fun s => s != "") = []) ↔
      gs.flatten = [] := by
  induction gs with
  | nil => simp
  | cons g gs' ih =>
    have hg := h g (by simp)
    have hrest : ∀ g' ∈ gs', ∀ s ∈ g', s ≠ "" := fun g' hmem => h g' (by simp [hmem])
    by_cases hge : g = []
    · subst hge
      simp only [List.map_cons, List.filter_cons]
      norm_num [pyJoin, ih hrest]
    · have hne := pyJoin_ne_empty g hge hg
      simp only [List.map_cons, List.filter_cons, bne_iff_ne, ne_eq, hne,
        not_false_eq_true, if_pos, List.flatten_cons]
      constructor
      · intro habs; simp at habs
      · intro habs
        exact absurd ((List.append_eq_nil.mp habs).1) hge

theorem pyJoin_filter_flatten (gs : List (List String))
    (h : ∀ g ∈ gs, ∀ s ∈ g, s ≠ "") :
    pyJoin "\n" ((gs.map (pyJoin "\n")).filter (fun s => s != "")) =
      pyJoin "\n" gs.flatten := by
  induction gs with
  | nil => rfl
  | cons g gs' ih =>
    have hg := h g (by simp)
    have hrest : ∀ g' ∈ gs', ∀ s ∈ g', s ≠ "" := fun g' hmem => h g' (by simp [hmem])
    by_cases hge : g = []
    · subst hge
      simp only [List.map_cons, List.filter_cons, List.flatten_cons,
        List.nil_append]
      norm_num [pyJoin, ih hrest]
    · have hne := pyJoin_ne_empty g hge hg
      simp only [List.map_cons, List.filter_cons, bne_iff_ne, ne_eq, hne,
        not_false_eq_true, if_pos, List.flatten_cons]
      by_cases hflat : gs'.flatten = []
      · have hfil : (gs'.map (pyJoin "\n")).filter (fun s => s != "") = [] :=
          (filter_map_pyJoin_eq_nil_iff gs' hrest).mpr hflat
        rw [hfil, hflat, List.append_nil]
        rfl
      · have hfil : (gs'.map (pyJoin "\n")).filter (fun s => s != "") ≠ [] := by
          intro habs
          exact hflat ((filter_map_pyJoin_eq_nil_iff gs' hrest).mp habs)
        rw [pyJoin_cons _ _ _ hfil, ih hrest,
          pyJoin_append _ _ _ hge hflat]

theorem mapped_tag_ne_empty (tag : String) (htag : tag ≠ "")
    (files : List String) : ∀ s ∈ files.map (fun f => tag ++ f), s ≠ "" := by
  intro s hs
  obtain ⟨f, _, rfl⟩ := List.mem_map.mp hs
  exact string_append_ne_empty_left _ _ htag

theorem changedLines_ne_empty (a r m : List String) :
    ∀ s ∈ changedLines a r m, s ≠ "" := by
  intro s hs
  simp only [changedLines, List.mem_append] at hs
  rcases hs with (hs | hs) | hs
  · exact mapped_tag_ne_empty "A " (by decide) a s hs
  · exact mapped_tag_ne_empty "R " (by decide) r s hs
  · exact mapped_tag_ne_empty "M " (by decide) m s hs

/-- The changed-files listing equals the newline join of every prefixed
line in order, for all inputs. -/
theorem changesListing_eq_flat (a r m : List String) :
    changesListing a r m = pyJoin "\n" (changedLines a r m) := by
  have h := pyJoin_filter_flatten
    [a.map (fun f => "A " ++ f), r.map (fun f => "R " ++ f),
     m.map (fun f => "M " ++ f)]
    (by
      intro g hg s hs
      simp only [List.mem_cons, List.mem_singleton, List.not_mem_nil,
        or_false] at hg
      rcases hg with rfl | rfl | rfl
      · exact mapped_tag_ne_empty "A " (by decide) a s hs
      · exact mapped_tag_ne_empty "R " (by decide) r s hs
      · exact mapped_tag_ne_empty "M " (by decide) m s hs)
  simpa [changesListing, formatFiles, changedLines, List.flatten] using h

theorem splitNl_no_nl (l : List Char) (h : '\n' ∉ l) : splitNl l = [l] := by
  induction l with
  | nil => rfl
  | cons c cs ih =>
    have hc : ¬(c = '\n') := fun habs => h (by simp [habs])
    have hcs : '\n' ∉ cs := fun habs => h (by simp [habs])
    rw [splitNl, if_neg hc, ih hcs]

theorem splitNl_append_nl (l rest : List Char) (h : '\n' ∉ l) :
    splitNl (l ++ '\n' :: rest) = l :: splitNl rest := by
  induction l with
  | nil =>
    simp only [List.nil_append]
    rw [splitNl, if_pos rfl]
  | cons c cs ih =>
    have hc : ¬(c = '\n') := fun habs => h (by simp [habs])
    have hcs : '\n' ∉ cs := fun habs => h (by simp [habs])
    rw [List.cons_append, splitNl, if_neg hc, ih hcs]

theorem splitNl_pyJoin (L : List String) (hne : L ≠ [])
    (h : ∀ s ∈ L, '\n' ∉ s.data) :
    splitNl (pyJoin "\n" L).data = L.map String.data := by
  induction L with
  | nil => exact absurd rfl hne
  | cons s L' ih =>
    match L' with
    | [] =>
      show splitNl s.data = [s.data]
      exact splitNl_no_nl s.data (h s (by simp))
    | t :: L'' =>
      rw [pyJoin_cons _ _ _ (by simp)]
      have hdata : (s ++ "\n" ++ pyJoin "\n" (t :: L'')).data
          = s.data ++ '\n' :: (pyJoin "\n" (t :: L'')).data := by
        simp [List.append_assoc]
      rw [hdata, splitNl_append_nl _ _ (h s (by simp)),
        ih (by simp) (fun u hu => h u (by simp [List.mem_cons] at hu ⊢; tauto))]
      rfl

theorem noBlankLines_pyJoin (L : List String)
    (h : ∀ s ∈ L, s ≠ "" ∧ '\n' ∉ s.data) : noBlankLines (pyJoin "\n" L) := by
  match L with
  | [] => exact Or.inl rfl
  | s :: L' =>
    refine Or.inr ?_
    rw [splitNl_pyJoin (s :: L') (by simp) (fun u hu => (h u hu).2)]
    intro habs
    obtain ⟨u, hu, hud⟩ := List.mem_map.mp habs
    exact (h u hu).1 ((string_eq_empty_iff_data u).mpr hud)

theorem changedLines_no_nl (a r m : List String)
    (h : ∀ p ∈ a ++ r ++ m, '\n' ∉ p.data) :
    ∀ s ∈ changedLines a r m, '\n' ∉ s.data := by
  intro s hs
  simp only [changedLines, List.mem_append] at hs
  have htag : ∀ (tag f : String), tag = "A " ∨ tag = "R " ∨ tag = "M " →
      '\n' ∉ f.data → '\n' ∉ (tag ++ f).data := by
    intro tag f htag hf habs
    rw [String.data_append, List.mem_append] at habs
    rcases habs with habs | habs
    · rcases htag with rfl | rfl | rfl <;> simp at habs
    · exact hf habs
  rcases hs with (hs | hs) | hs
  all_goals obtain ⟨f, hf, rfl⟩ := List.mem_map.mp hs
  · exact htag _ _ (by simp) (h f (by simp [hf]))
  · exact htag _ _ (by simp) (h f (by simp [hf]))
  · exact htag _ _ (by simp) (h f (by simp [hf]))

/-- Blank-line freedom of the changed-files listing, for newline-free
paths. -/
theorem changesListing_noBlankLines (a r m : List String)
    (h : ∀ p ∈ a ++ r ++ m, '\n' ∉ p.data) :
    noBlankLines (changesListing a r m) := by
  rw [changesListing_eq_flat]
  exact noBlankLines_pyJoin _ (fun s hs =>
    ⟨changedLines_ne_empty a r m s hs, changedLines_no_nl a r m h s hs⟩)

/-! ## Claim theorems -/

/-- C3: for every event type other than "push" and every request — in
particular one whose body is unparseable or whose payload lacks any
field — the handler answers the skip response after reading only the
event type: the trace is exactly `[readEvent]`, so no payload field
access (and no `get_json`) happens and no malformed payload can fail. -/
theorem c3_nonpush_ignored (env : Env) (api : PrApi) (req : Request)
    (h : req.event ≠ "push") :
    commit_email env api req = (.ok "nope", [Step.readEvent]) := by
  simp only [commit_email]
  rw [if_pos h]

/-- C3 witness: a complete, correctly signed request whose event type is
"issues" is ignored with the single-step trace, as is one with an
unparseable body. -/
theorem c3_witness :
    commit_email envFull PrApi.getRaises requestNonPush
      = (.ok "nope", [Step.readEvent]) :=
  c3_nonpush_ignored envFull PrApi.getRaises requestNonPush (by decide)

/-- C2 counterexample: a request whose presented signature is invalid
(here: 3 bytes long, while a valid signature has 45) and whose event type
is "ping" does reach the event-type examination — the handler reads the
event type and answers on its basis without ever verifying the
signature.  This contradicts the claim that signature verification
happens first and that an invalidly signed request never reaches the
event-type check. -/
theorem c2_counterexample :
    _valid_signature (requestPing.signature.getD []) requestPing.data
        sampleSecret = false ∧
    envFull.secret = some sampleSecret ∧
    commit_email envFull PrApi.getRaises requestPing
      = (.ok "nope", [Step.readEvent]) ∧
    Step.readEvent ∈ (commit_email envFull PrApi.getRaises requestPing).2 ∧
    Step.verifySig ∉ (commit_email envFull PrApi.getRaises requestPing).2 := by
  refine ⟨valid_signature_false_of_length_ne _ _ _ (by decide), rfl, ?_, ?_, ?_⟩
  · decide
  · decide
  · decide

/-- C2 (amended): the event-type check precedes signature verification.
A non-push request is answered without any signature verification; for a
push request with the secret configured, an invalid signature stops the
handler right after the verification step, so such a request never
reaches `get_json`, any payload field check, the lookup or the send. -/
theorem c2_event_check_precedes_signature (env : Env) (api : PrApi)
    (req : Request) :
    (req.event ≠ "push" →
      commit_email env api req = (.ok "nope", [Step.readEvent])) ∧
    (∀ secret, req.event = "push" → env.secret = some secret →
      _valid_signature (req.signature.getD []) req.data secret = false →
      commit_email env api req =
        (.ok "nope", [Step.readEvent, Step.getSecret, Step.verifySig])) := by
  constructor
  · intro h
    simp only [commit_email]
    rw [if_pos h]
  · intro secret he hs hv
    simp only [commit_email, _get_secret, he, hs, hv]
    simp

/-- C2 witness: both amended branches at concrete inputs — an ignored
"ping" request and a push request with a 3-byte (hence invalid)
signature stopped at the verification step. -/
theorem c2_witness :
    commit_email envFull PrApi.getRaises requestPing
      = (.ok "nope", [Step.readEvent]) ∧
    commit_email envFull PrApi.getRaises requestBadSig
      = (.ok "nope", [Step.readEvent, Step.getSecret, Step.verifySig]) :=
  ⟨(c2_event_check_precedes_signature envFull PrApi.getRaises requestPing).1
      (by decide),
   (c2_event_check_precedes_signature envFull PrApi.getRaises requestBadSig).2
      sampleSecret rfl rfl
      (valid_signature_false_of_length_ne _ _ _ (by decide))⟩

/-- C4: for a signed push request whose parsed payload has a head-commit
message, (a) if the message does not contain "Merge pull request" the
handler skips the event right after the message check, and (b) if the
message does contain it but the deletion flag is true the handler skips
as well — in both cases with the trace that stops at the first group of
payload reads: no lookup and no send. -/
theorem c4_classify_ignore (env : Env) (api : PrApi) (req : Request)
    (secret : List Nat) (pl : Payload) (hc : HeadCommit) (msg : String)
    (he : req.event = "push") (hs : env.secret = some secret)
    (hv : _valid_signature (req.signature.getD []) req.data secret = true)
    (hp : req.payload = some pl) (hh : pl.head_commit = some hc)
    (hm : hc.message = some msg) :
    (pyIn "Merge pull request" msg = false →
      commit_email env api req = (.ok "nope", preTrace)) ∧
    (pyIn "Merge pull request" msg = true → pl.deleted = some true →
      commit_email env api req = (.ok "nope", preTrace)) := by
  constructor
  · intro hno
    simp only [commit_email, _get_secret, he, hs, hv, hp, hh, hm, hno]
    simp
  · intro hyes hdel
    simp only [commit_email, _get_secret, he, hs, hv, hp, hh, hm, hyes, hdel]
    simp

/-- C4 witness: with a correctly signed body, a push whose head-commit
message is "Test" is ignored, and a push with a merge message on a
deleted branch is ignored, both with the five-step trace. -/
theorem c4_witness :
    commit_email envFull PrApi.getRaises requestNoMerge
      = (.ok "nope", preTrace) ∧
    commit_email envFull PrApi.getRaises requestDeleted
      = (.ok "nope", preTrace) :=
  ⟨(c4_classify_ignore envFull PrApi.getRaises requestNoMerge sampleSecret
      payloadNoMerge _ "Test" rfl rfl (valid_signature_self sampleSecret sampleBody)
      rfl rfl rfl).1 (by decide),
   (c4_classify_ignore envFull PrApi.getRaises requestDeleted sampleSecret
      payloadDeleted _ "Merge pull request: A lovely\n\ncommit message." rfl rfl
      (valid_signature_self sampleSecret sampleBody)
      rfl rfl rfl).2 (by decide) rfl⟩

/-- C5 counterexample: the claim's blank-line guarantee fails for a path
that itself contains a newline: for added = ["\n"] the listing is
"A \n", whose final line is empty (a trailing blank line). -/
theorem c5_counterexample :
    changesListing ["\n"] [] [] = "A \n" ∧
    ¬ noBlankLines (changesListing ["\n"] [] []) := by
  constructor
  · rfl
  · decide

/-- C5 (amended): the changed-files listing always equals the newline
join of the prefixed entries of the non-empty groups in the fixed order
added, removed, modified; it has no leading, trailing or interior blank
line provided no path contains a newline character; and the concrete
example from the spec evaluates exactly as stated. -/
theorem c5_changed_files (a r m : List String) :
    changesListing a r m = pyJoin "\n" (changedLines a r m) ∧
    ((∀ p ∈ a ++ r ++ m, '\n' ∉ p.data) →
      noBlankLines (changesListing a r m)) ∧
    changesListing [] ["a.out", "gen"] ["README.md", "README", "LICENSE"]
      = "R a.out\nR gen\nM README.md\nM README\nM LICENSE" :=
  ⟨changesListing_eq_flat a r m, changesListing_noBlankLines a r m, by rfl⟩

/-- C5 witness: the amended statement at concrete lists of newline-free
paths. -/
theorem c5_witness :
    changesListing ["x"] ["y", "z"] [] =
      pyJoin "\n" (changedLines ["x"] ["y", "z"] []) ∧
    noBlankLines (changesListing ["x"] ["y", "z"] []) ∧
    changesListing [] ["a.out", "gen"] ["README.md", "README", "LICENSE"]
      = "R a.out\nR gen\nM README.md\nM README\nM LICENSE" :=
  ⟨(c5_changed_files ["x"] ["y", "z"] []).1,
   (c5_changed_files ["x"] ["y", "z"] []).2.1 (by decide),
   (c5_changed_files ["x"] ["y", "z"] []).2.2⟩

/-- C6: for every repository name and every message with at least one
line, the subject is "[Chapel Merge] " followed by the line at index 2
(when at least 3 lines exist) or the line at index 0 (otherwise),
truncated to at most 50 characters. -/
theorem c6_subject (repo msg : String) (h : splitlines msg ≠ []) :
    _get_subject repo msg = some ("[Chapel Merge] " ++ pyTake 50
      (if h3 : (splitlines msg).length ≥ 3
       then (splitlines msg).get ⟨2, by omega⟩
       else (splitlines msg).get ⟨0, List.length_pos.mpr h⟩)) := by
  by_cases h3 : (splitlines msg).length ≥ 3
  · rw [dif_pos h3]
    simp only [_get_subject, h3, if_pos]
    rw [List.getElem?_eq_getElem (show 2 < (splitlines msg).length by omega)]
    simp [List.get_eq_getElem]
  · rw [dif_neg h3]
    simp only [_get_subject, h3, if_false]
    rw [List.getElem?_eq_getElem (List.length_pos.mpr h)]
    simp [List.get_eq_getElem]

/-- C6 witness: the merge message of the repository's test yields the
subject built from its third line, and a one-line message yields the
subject built from that line. -/
theorem c6_witness :
    splitlines "Merge pull request: A lovely\n\ncommit message." ≠ [] ∧
    _get_subject "testing/test" "Merge pull request: A lovely\n\ncommit message."
      = some "[Chapel Merge] commit message." ∧
    _get_subject "TEST/it" "this is a message"
      = some "[Chapel Merge] this is a message" := by
  refine ⟨by decide, ?_, ?_⟩
  · rw [c6_subject "testing/test"
      "Merge pull request: A lovely\n\ncommit message." (by decide)]
    rfl
  · rw [c6_subject "TEST/it" "this is a message" (by decide)]
    rfl

/-- C9: the subject computation fails (raises `IndexError`, modelled as
`none`) on the empty commit message, and succeeds exactly on messages
that split into at least one line. -/
theorem c9_subject_partial :
    (∀ repo, _get_subject repo "" = none) ∧
    (∀ repo msg, (_get_subject repo msg).isSome = true ↔
        splitlines msg ≠ []) :=
  ⟨fun _ => rfl, fun repo msg => get_subject_isSome_iff repo msg⟩

/-- C10: the subject never depends on the repository-name argument, and
every subject produced starts with the fixed label "[Chapel Merge] ". -/
theorem c10_subject_repo_independent :
    (∀ r1 r2 msg, _get_subject r1 msg = _get_subject r2 msg) ∧
    (∀ repo msg s, _get_subject repo msg = some s →
      ∃ rest, s = "[Chapel Merge] " ++ rest) := by
  constructor
  · intro r1 r2 msg
    rfl
  · intro repo msg s h
    simp only [_get_subject] at h
    obtain ⟨m, _, hfm⟩ := Option.map_eq_some'.mp h
    exact ⟨pyTake 50 m, hfm.symm⟩

/-- C10 witness: two different repository names give the same subject,
and a concrete subject starts with the fixed label. -/
theorem c10_witness :
    _get_subject "a/b" "hello" = _get_subject "c/d" "hello" ∧
    ∃ rest, "[Chapel Merge] hello" = "[Chapel Merge] " ++ rest :=
  ⟨c10_subject_repo_independent.1 "a/b" "c/d" "hello",
   c10_subject_repo_independent.2 "a/b" "hello" "[Chapel Merge] hello"
     (by decide)⟩

/-- C7 counterexample: the lookup result is not always a non-empty
string — when the API's first result carries an empty `html_url`, the
resolved URL is the empty string. -/
theorem c7_counterexample :
    fetch_pr_url (PrApi.results [{ html_url := some "" }]) = "" := rfl

/-- C7 (amended): the pull-request lookup never raises (it is total over
every modelled API behaviour): it returns the sentinel "Unavailable" on
every failure (network error, non-JSON response, non-list JSON, empty
result list, missing `html_url` field) and otherwise returns the first
result's URL verbatim — non-empty exactly when the API-supplied URL is.
Moreover the pipeline continues in both cases: for every completely
parsed merge push with mail configured, the handler sends with
`pr_url = fetch_pr_url api`, whatever the API behaviour `api` is. -/
theorem c7_pr_lookup :
    (∀ api, fetch_pr_url api = "Unavailable" ∨
      ∃ item rest, api = PrApi.results (item :: rest) ∧
        item.html_url = some (fetch_pr_url api)) ∧
    fetch_pr_url PrApi.getRaises = "Unavailable" ∧
    fetch_pr_url PrApi.jsonRaises = "Unavailable" ∧
    fetch_pr_url PrApi.nonList = "Unavailable" ∧
    fetch_pr_url (PrApi.results []) = "Unavailable" ∧
    (∀ rest, fetch_pr_url (PrApi.results ({ html_url := none } :: rest))
      = "Unavailable") ∧
    (∀ (env : Env) (api : PrApi) (req : Request) (secret : List Nat)
       (pl : Payload) (hc : HeadCommit) (msg ref hid cmp repo pname pemail aft
        sender recipient : String)
       (added removed modified : List String),
      req.event = "push" → env.secret = some secret →
      _valid_signature (req.signature.getD []) req.data secret = true →
      req.payload = some pl → pl.head_commit = some hc →
      hc.message = some msg → pyIn "Merge pull request" msg = true →
      pl.deleted = some false →
      hc.added = some added → hc.removed = some removed →
      hc.modified = some modified →
      pl.pusher_name = some pname → pl.pusher_email = some pemail →
      pl.repository_full_name = some repo → pl.after = some aft →
      pl.ref = some ref → hc.id = some hid → pl.compare = some cmp →
      _get_sender env (pname ++ " <" ++ pemail ++ ">") = some sender →
      env.recipient = some recipient →
      commit_email env api req = (.ok "yep", preTrace ++ [Step.prLookup,
        Step.readPayload, Step.send
          { repo := repo
            branch := ref
            revision := pyTake 7 hid
            message := msg
            changed_files := changesListing added removed modified
            pusher := pname
            pusher_email := pname ++ " <" ++ pemail ++ ">"
            compare_url := cmp
            pr_url := fetch_pr_url api }])) := by
  refine ⟨?_, rfl, rfl, rfl, rfl, fun rest => rfl, ?_⟩
  · intro api
    match api with
    | .getRaises => exact Or.inl rfl
    | .jsonRaises => exact Or.inl rfl
    | .nonList => exact Or.inl rfl
    | .results [] => exact Or.inl rfl
    | .results (item :: rest) =>
      cases hu : item.html_url with
      | none => exact Or.inl (by simp [fetch_pr_url, pr_lookup_body, hu])
      | some u =>
        exact Or.inr ⟨item, rest, rfl, by simp [fetch_pr_url, pr_lookup_body, hu]⟩
  · intro env api req secret pl hc msg ref hid cmp repo pname pemail aft
      sender recipient added removed modified he hsec hv hp hh hm hcont hdel
      hadd hrem hmod hpn hpe hrepo haft href hid2 hcmp hsender hrecip
    obtain ⟨subj, hsubj⟩ := get_subject_total repo msg
      (splitlines_ne_nil_of_merge msg hcont)
    simp only [commit_email, _get_secret, he, hsec, hv, hp, hh, hm, hcont,
      hdel, hadd, hrem, hmod, hpn, hpe, hrepo, haft, href, hid2, hcmp]
    simp only [_send_email, _get_sender] at hsender ⊢
    simp only [hsender, hrecip, hsubj]
    simp

/-- C7 witness: the end-to-end scenario of the repository's own test — a
valid signed merge push whose pull-request lookup fails with a network
error — is answered "yep" and the mail is sent with the sentinel URL. -/
theorem c7_witness :
    fetch_pr_url PrApi.getRaises = "Unavailable" ∧
    commit_email envFull PrApi.getRaises requestPush =
      (.ok "yep", preTrace ++ [Step.prLookup, Step.readPayload,
        Step.send msgSample]) := by
  refine ⟨c7_pr_lookup.2.1, ?_⟩
  have h := c7_pr_lookup.2.2.2.2.2.2 envFull PrApi.getRaises requestPush
    sampleSecret payloadFull
    ({ id := some "some-sha1"
       message := some "Merge pull request: A lovely\n\ncommit message."
       added := some []
       removed := some ["a.out", "gen"]
       modified := some ["README.md", "README", "LICENSE"] } : HeadCommit)
    "Merge pull request: A lovely\n\ncommit message." "the/master" "some-sha1"
    "http://the-url.it" "testing/test" "the-tester" "the@example.com"
    "some-sha" "noreply@example.com" "commits@example.com"
    [] ["a.out", "gen"] ["README.md", "README", "LICENSE"]
    rfl rfl (valid_signature_self sampleSecret sampleBody) rfl rfl rfl
    (by decide) rfl rfl rfl rfl rfl rfl rfl rfl rfl rfl rfl rfl rfl
  rw [h]
  decide

/-- C8 counterexample: with `GITHUB_COMMIT_EMAILER_SENDER` set to the
empty string and a recipient configured, `_send_email` does not raise a
configuration error: the sender resolves to "" (empty, not unset) and
the mail is transmitted with an empty sender address. -/
theorem c8_counterexample :
    _get_sender envEmptySender msgSample.pusher_email = some "" ∧
    (_send_email envEmptySender msgSample).toOption.map
        SentMail.envelope_sender = some "" := by
  exact ⟨rfl, rfl⟩

/-- C8 (amended): `_send_email` raises the configuration `ValueError`
whenever the resolved sender or the configured recipient is unset
(`None`), regardless of every other field and of the message content,
and no mail is transmitted (no `SentMail` is produced); a set-but-empty
value, however, is not rejected. -/
theorem c8_config_error (env : Env) (info : MsgInfo)
    (h : _get_sender env info.pusher_email = none ∨ env.recipient = none) :
    _send_email env info = .error .valueError := by
  rcases h with h | h
  · cases hr : env.recipient <;> simp [_send_email, h, hr]
  · cases hs : _get_sender env info.pusher_email <;> simp [_send_email, h, hs]

/-- C8 witness: with the recipient unset, `_send_email` raises the
configuration error whatever the message is. -/
theorem c8_witness :
    (_get_sender envNoRecipient msgSample.pusher_email = none ∨
      envNoRecipient.recipient = none) ∧
    _send_email envNoRecipient msgSample = .error .valueError :=
  ⟨Or.inr rfl, c8_config_error envNoRecipient msgSample (Or.inr rfl)⟩

end Emailer
